import Mathlib

/-!
Verification of the Performance Specification Toolkit core
(crawler, metrics collector, analyzer, report generator, config),
shallowly embedded from the Python sources under
src/ui/deepcode_lab/papers/2/generate_code.
-/

set_option maxHeartbeats 1000000

namespace PerfSpec

/-- A model of Python values as they occur in the nested configuration
store and in measurement snapshots: None, booleans, integers, strings,
lists and (string-keyed) dicts. Dicts are association lists with unique
keys; lookup takes the first match. -/
inductive PyVal where
  | none : PyVal
  | bool (b : Bool) : PyVal
  | int (n : Int) : PyVal
  | str (s : String) : PyVal
  | list (xs : List PyVal) : PyVal
  | dict (xs : List (String × PyVal)) : PyVal

/-- Python exceptions that can escape the embedded fragments:
TypeError (indexing a non-dict in Config.get) and AttributeError
(calling .items() on None in Analyzer). -/
inductive PyErr where
  | typeError : PyErr
  | attributeError : PyErr
deriving DecidableEq

/-- Python truthiness of a PyVal: None, False, 0, the empty string, the
empty list and the empty dict are falsy; everything else is truthy. -/
def pyTruthy : PyVal → Bool
  | PyVal.none => false
  | PyVal.bool b => b
  | PyVal.int n => n != 0
  | PyVal.str s => s != ""
  | PyVal.list xs => !xs.isEmpty
  | PyVal.dict xs => !xs.isEmpty

/-- Splitting a character list at every dot, embedding the Python
expression key.split(".") used by Config.get. Mirrors Python semantics:
the empty string yields one empty piece, and a trailing dot yields a final
empty piece. -/
def splitOnDot : List Char → List (List Char)
  | [] => [[]]
  | c :: cs =>
    let r := splitOnDot cs
    if c = '.' then [] :: r
    else
      match r with
      | [] => [[c]]
      | g :: gs => (c :: g) :: gs

/-- Python key.split(".") on a string. -/
def pySplitDot (s : String) : List String :=
  (splitOnDot s.toList).map List.asString

/-- Python s.replace(a, b) for single-character patterns, the only form
the sources use (report_generator.py line 83). -/
def replaceChar (a b : Char) (s : String) : String :=
  List.asString (s.toList.map fun c => if c = a then b else c)

namespace Config

/-- Embeds the loop body of Config.get (src/utils/config.py lines 59-66):
walk the already-split key segments through the stored value. Reaching a
dict without the segment models the KeyError the source catches, so it
yields Option.none (the caller substitutes the default). Indexing into a
non-dict value raises TypeError, which the source does not catch. -/
def getPath : PyVal → List String → Except PyErr (Option PyVal)
  | v, [] => Except.ok (some v)
  | PyVal.dict xs, k :: ks =>
    match List.lookup k xs with
    | some v => getPath v ks
    | Option.none => Except.ok Option.none
  | _, _ :: _ => Except.error PyErr.typeError

/-- Embeds Config.get (src/utils/config.py lines 52-66): split the dotted
key, traverse the nested store, return the value found, the default on a
caught KeyError, or propagate the uncaught TypeError. -/
def get (config : List (String × PyVal)) (key : String) (default : PyVal) :
    Except PyErr PyVal :=
  match getPath (PyVal.dict config) (pySplitDot key) with
  | Except.ok (some v) => Except.ok v
  | Except.ok Option.none => Except.ok default
  | Except.error e => Except.error e

/-- Spec-side predicate: the traversal of the given segments through the
value only ever indexes into dicts (a missing key is fine, a non-dict
intermediate with segments remaining is not). -/
def safePath : PyVal → List String → Bool
  | _, [] => true
  | PyVal.dict xs, k :: ks =>
    match List.lookup k xs with
    | some v => safePath v ks
    | Option.none => true
  | _, _ :: _ => false

/-- Spec-side pure lookup: the value the dotted path denotes, or
Option.none when any segment is absent. -/
def resolvePath : PyVal → List String → Option PyVal
  | v, [] => some v
  | PyVal.dict xs, k :: ks =>
    match List.lookup k xs with
    | some v => resolvePath v ks
    | Option.none => Option.none
  | _, _ :: _ => Option.none

end Config

namespace Analyzer

/-- The result record built by Analyzer.analyze (analyzer.py lines 38-42):
a summary dict plus insight and recommendation string lists. -/
structure AnalysisResult where
  summary : List (String × PyVal)
  insights : List String
  recommendations : List String

/-- The per-item condition of Analyzer._check_for_errors (analyzer.py line
120): the value is a dict and its "error" entry is truthy (dict.get returns
None when the key is absent). -/
def entry_has_error : PyVal → Bool
  | PyVal.dict ys => pyTruthy ((List.lookup "error" ys).getD PyVal.none)
  | _ => false

/-- Embeds Analyzer._check_for_errors (analyzer.py lines 108-123): scan the
top-level items of the snapshot; report true when some value is a dict whose
"error" entry is truthy. Passing None for the snapshot raises
AttributeError, since None has no .items() method. -/
def check_for_errors : Option (List (String × PyVal)) → Except PyErr Bool
  | Option.none => Except.error PyErr.attributeError
  | some xs => Except.ok (xs.any fun kv => entry_has_error kv.2)

/-- Embeds Analyzer._generate_summary (analyzer.py lines 47-66). The `now`
argument stands for the string datetime.datetime.now().isoformat() returns
inside Analyzer._get_latest_timestamp (lines 125-137) at the moment of the
call. A falsy snapshot (None or the empty dict) short-circuits to the
error-flag summary. -/
def generate_summary (now : String) (md : Option (List (String × PyVal))) :
    Except PyErr (List (String × PyVal)) :=
  match md with
  | Option.none => Except.ok [("error", PyVal.str "No metrics data provided")]
  | some xs =>
    if xs.isEmpty then
      Except.ok [("error", PyVal.str "No metrics data provided")]
    else do
      let errs ← check_for_errors (some xs)
      Except.ok [("total_metrics", PyVal.int xs.length),
                 ("has_errors", PyVal.bool errs),
                 ("timestamp", PyVal.str now)]

/-- Embeds Analyzer._extract_insights (analyzer.py lines 68-86): one fixed
message when _check_for_errors reports true. -/
def extract_insights (md : Option (List (String × PyVal))) :
    Except PyErr (List String) := do
  let errs ← check_for_errors md
  Except.ok (if errs then ["Performance issues detected in metrics collection"] else [])

/-- Embeds Analyzer._generate_recommendations (analyzer.py lines 88-106):
one fixed message when _check_for_errors reports true. -/
def generate_recommendations (md : Option (List (String × PyVal))) :
    Except PyErr (List String) := do
  let errs ← check_for_errors md
  Except.ok (if errs then ["Investigate error sources in metrics collection pipeline"] else [])

/-- Embeds Analyzer.analyze (analyzer.py lines 25-45): build the result dict,
evaluating summary, insights and recommendations in source order. The `now`
argument is the wall-clock reading taken during this call. -/
def analyze (now : String) (md : Option (List (String × PyVal))) :
    Except PyErr AnalysisResult := do
  let s ← generate_summary now md
  let i ← extract_insights md
  let r ← generate_recommendations md
  Except.ok { summary := s, insights := i, recommendations := r }

/-- Spec-side predicate on a snapshot dict: some top-level value is itself
a dict carrying a truthy "error" entry. This is exactly the condition the
source detects; errors nested deeper (such as entries of the http list
under the "sources" value) do not satisfy it. -/
def TopLevelError (xs : List (String × PyVal)) : Prop :=
  ∃ k ys, (k, PyVal.dict ys) ∈ xs ∧
    pyTruthy ((List.lookup "error" ys).getD PyVal.none) = true

end Analyzer

namespace Crawler

/-- What one successful HTTP GET yields to the crawler (crawler.py lines
68-79): status code, body size, declared content type, and the elapsed and
wall-clock times. Times are abstracted to an opaque numeric domain, since
the claims concern control flow, not arithmetic on durations. -/
structure CrawlResponse where
  status_code : Nat
  content_length : Nat
  content_type : String
  response_time : Nat
  timestamp : Nat
deriving DecidableEq

/-- The per-fetch record built in crawler.py lines 74-82. -/
structure CrawlRecord where
  url : String
  status_code : Nat
  content_length : Nat
  content_type : String
  response_time : Nat
  timestamp : Nat
  depth : Nat
deriving DecidableEq

/-- Embeds Crawler._crawl_recursive (crawler.py lines 45-99), with the
network abstracted as `fetch` (Option.none models a requests.RequestException,
caught at line 93). Returns the emitted records and the updated seen set:
stop beyond max_depth or on an already seen URL; otherwise mark seen, fetch,
and emit one record on success or none on failure. Despite its name the
source function never calls itself, which the embedding mirrors. -/
def crawl_recursive (fetch : String → Option CrawlResponse) (max_depth : Nat)
    (url : String) (depth : Nat) (seen : List String) :
    List CrawlRecord × List String :=
  if depth > max_depth then ([], seen)
  else if url ∈ seen then ([], seen)
  else
    match fetch url with
    | some r =>
      ([{ url := url, status_code := r.status_code,
          content_length := r.content_length, content_type := r.content_type,
          response_time := r.response_time, timestamp := r.timestamp,
          depth := depth }], url :: seen)
    | Option.none => ([], url :: seen)

/-- The loop of Crawler.crawl (crawler.py lines 39-41): fold over the seeds,
threading one shared seen set, extending the result list. -/
def crawlGo (fetch : String → Option CrawlResponse) (max_depth : Nat) :
    List String → List String → List CrawlRecord
  | [], _ => []
  | u :: rest, seen =>
    let step := crawl_recursive fetch max_depth u 0 seen
    step.1 ++ crawlGo fetch max_depth rest step.2

/-- Embeds Crawler.crawl (crawler.py lines 29-43): start from an empty seen
set and visit every base URL at depth 0. -/
def crawl (fetch : String → Option CrawlResponse) (max_depth : Nat)
    (base_urls : List String) : List CrawlRecord :=
  crawlGo fetch max_depth base_urls []

end Crawler

namespace MetricsCollector

/-- Outcome of one requests.get call against an endpoint, as the metrics
collector observes it (metrics_collector.py lines 128-152): either a
response (status, elapsed time, body size) or a requests.RequestException
carrying a message. Durations are abstracted to an opaque numeric domain. -/
inductive HttpOutcome where
  | ok (status_code : Nat) (response_time : Nat) (content_length : Nat) : HttpOutcome
  | exn (msg : String) : HttpOutcome
deriving DecidableEq

/-- Whether the probe outcome is a raised request exception. -/
def HttpOutcome.isExn : HttpOutcome → Bool
  | HttpOutcome.ok _ _ _ => false
  | HttpOutcome.exn _ => true

/-- One entry of the http metrics list. The two dict shapes the source
appends (metrics_collector.py lines 136-142 and 148-152) are modeled with
optional fields: a success entry populates status_code, response time and
content_length and leaves error empty; a failure entry populates only the
error message. -/
structure HttpEntry where
  url : String
  status_code : Option Nat
  response_time_seconds : Option Nat
  content_length : Option Nat
  error : Option String
  success : Bool
deriving DecidableEq

/-- Embeds MetricsCollector._collect_http_metrics (metrics_collector.py
lines 115-154): probe each configured endpoint in order; append a success
entry on a response and a failure entry on a request exception, never
letting the exception escape. -/
def collect_http_metrics (probe : String → HttpOutcome) :
    List String → List HttpEntry
  | [] => []
  | ep :: rest =>
    (match probe ep with
     | HttpOutcome.ok sc rt cl =>
       { url := ep, status_code := some sc, response_time_seconds := some rt,
         content_length := some cl, error := Option.none, success := true }
     | HttpOutcome.exn m =>
       { url := ep, status_code := Option.none,
         response_time_seconds := Option.none, content_length := Option.none,
         error := some m, success := false })
    :: collect_http_metrics probe rest

/-- The simulated host gauges of _collect_system_metrics (metrics_collector.py
lines 94-113); percentages are rationals. -/
structure SystemMetrics where
  cpu_usage_percent : Rat
  memory_usage_percent : Rat
  disk_usage_percent : Rat
  network_bytes_sent : Nat
  network_bytes_recv : Nat
  collection_method : String

/-- Embeds _collect_system_metrics: the fixed simulated gauge record. -/
def collect_system_metrics : SystemMetrics :=
  { cpu_usage_percent := 452 / 10, memory_usage_percent := 601 / 10,
    disk_usage_percent := 705 / 10, network_bytes_sent := 1048576,
    network_bytes_recv := 2097152, collection_method := "simulated" }

/-- A value of the snapshot sources map: either the system gauge record or
the list of http entries. -/
inductive SourceMetrics where
  | system (m : SystemMetrics) : SourceMetrics
  | http (entries : List HttpEntry) : SourceMetrics

/-- Python dict assignment on an association list: replace the value in
place when the key exists, otherwise append the new binding. -/
def dictSet (k : String) (v : α) : List (String × α) → List (String × α)
  | [] => [(k, v)]
  | (k₁, v₁) :: rest =>
    if k₁ = k then (k, v) :: rest else (k₁, v₁) :: dictSet k v rest

/-- The dispatch loop of MetricsCollector.collect (metrics_collector.py
lines 65-71): each recognized source name stores its metrics under the
sources dict; unknown names are skipped with a warning. -/
def collectSources (probe : String → HttpOutcome) (endpoints : List String) :
    List String → List (String × SourceMetrics) → List (String × SourceMetrics)
  | [], acc => acc
  | s :: rest, acc =>
    if s = "system" then
      collectSources probe endpoints rest
        (dictSet "system" (SourceMetrics.system collect_system_metrics) acc)
    else if s = "http" then
      collectSources probe endpoints rest
        (dictSet "http" (SourceMetrics.http (collect_http_metrics probe endpoints)) acc)
    else
      collectSources probe endpoints rest acc

/-- The snapshot assembled by MetricsCollector.collect (metrics_collector.py
lines 59-82): timestamp, sources map, and collected_count = len(sources). -/
structure Snapshot where
  timestamp : String
  sources : List (String × SourceMetrics)
  collected_count : Nat

/-- Embeds MetricsCollector.collect: run the source dispatch loop starting
from an empty sources dict and finalize the count. The `ts` argument stands
for the collection timestamp string. -/
def collect (ts : String) (srcs : List String) (probe : String → HttpOutcome)
    (endpoints : List String) : Snapshot :=
  let s := collectSources probe endpoints srcs []
  { timestamp := ts, sources := s, collected_count := s.length }

end MetricsCollector

namespace ReportGenerator

/-- The serialization loop of ReportGenerator._save_report
(report_generator.py lines 88-96): only the "json" format is recognized;
each recognized format appends the artifact path it writes. -/
def saveLoop (output_dir base : String) : List String → List String
  | [] => []
  | fmt :: rest =>
    if fmt = "json" then
      (output_dir ++ "/" ++ base ++ ".json") :: saveLoop output_dir base rest
    else
      saveLoop output_dir base rest

/-- Embeds ReportGenerator._save_report (report_generator.py lines 73-99):
derive the base filename from the report timestamp with ":" replaced by "-"
and "T" by "_", write one artifact per recognized configured format, and
return the list of written paths together with the primary result — the
first written path, or the empty string when none was written. -/
def save_report (output_dir ts : String) (formats : List String) :
    List String × String :=
  let base := "performance_report_" ++ replaceChar 'T' '_' (replaceChar ':' '-' ts)
  let paths := saveLoop output_dir base formats
  (paths, match paths with | [] => "" | p :: _ => p)

/-- The path ReportGenerator.generate (report_generator.py lines 41-71)
returns: the primary result of _save_report for the report it assembled,
whose timestamp field is the `ts` argument. -/
def generate (output_dir ts : String) (formats : List String) : String :=
  (save_report output_dir ts formats).2

end ReportGenerator

/-- A sample fetch oracle: every URL responds with the same small page. -/
def fetchW : String → Option Crawler.CrawlResponse :=
  fun _ => some { status_code := 200, content_length := 3,
                  content_type := "text/html", response_time := 1, timestamp := 5 }

/-- A sample probe oracle: endpoint "b" raises a request exception, every
other endpoint responds. -/
def probeW : String → MetricsCollector.HttpOutcome :=
  fun e => if e = "b" then MetricsCollector.HttpOutcome.exn "connection refused"
           else MetricsCollector.HttpOutcome.ok 200 1 10

end PerfSpec

namespace PerfSpec

theorem Config.getPath_safe (ks : List String) :
    ∀ v : PyVal, Config.safePath v ks = true →
      Config.getPath v ks = Except.ok (Config.resolvePath v ks) := by
  induction ks with
  | nil => intro v _; simp [Config.getPath, Config.resolvePath]
  | cons k ks ih =>
    intro v h
    cases v with
    | dict xs =>
      simp only [Config.safePath] at h
      simp only [Config.getPath, Config.resolvePath]
      cases hl : List.lookup k xs with
      | none => simp [hl]
      | some w => simp only [hl] at h ⊢; exact ih w h
    | none => simp [Config.safePath] at h
    | bool b => simp [Config.safePath] at h
    | int n => simp [Config.safePath] at h
    | str s => simp [Config.safePath] at h
    | list xs => simp [Config.safePath] at h

theorem Crawler.crawl_recursive_stop (fetch : String → Option Crawler.CrawlResponse)
    (md : Nat) (u : String) (d : Nat) (seen : List String) (h : d > md) :
    Crawler.crawl_recursive fetch md u d seen = ([], seen) := by
  unfold Crawler.crawl_recursive
  rw [if_pos h]

theorem Crawler.crawl_recursive_cases (fetch : String → Option Crawler.CrawlResponse)
    (md : Nat) (u : String) (d : Nat) (seen : List String) :
    Crawler.crawl_recursive fetch md u d seen = ([], seen) ∨
    (u ∉ seen ∧
      ((∃ r, fetch u = some r ∧
          Crawler.crawl_recursive fetch md u d seen =
            ([{ url := u, status_code := r.status_code,
                content_length := r.content_length,
                content_type := r.content_type,
                response_time := r.response_time,
                timestamp := r.timestamp, depth := d }], u :: seen)) ∨
        (fetch u = Option.none ∧
          Crawler.crawl_recursive fetch md u d seen = ([], u :: seen)))) := by
  by_cases h1 : d > md
  · exact Or.inl (Crawler.crawl_recursive_stop fetch md u d seen h1)
  by_cases h2 : u ∈ seen
  · left
    unfold Crawler.crawl_recursive
    rw [if_neg h1, if_pos h2]
  cases hf : fetch u with
  | some r =>
    refine Or.inr ⟨h2, Or.inl ⟨r, rfl, ?_⟩⟩
    unfold Crawler.crawl_recursive
    rw [if_neg h1, if_neg h2, hf]
  | none =>
    refine Or.inr ⟨h2, Or.inr ⟨rfl, ?_⟩⟩
    unfold Crawler.crawl_recursive
    rw [if_neg h1, if_neg h2, hf]

theorem Crawler.crawl_recursive_snd_sup (fetch : String → Option Crawler.CrawlResponse)
    (md : Nat) (u : String) (d : Nat) (seen : List String) :
    seen ⊆ (Crawler.crawl_recursive fetch md u d seen).2 := by
  rcases Crawler.crawl_recursive_cases fetch md u d seen with h | ⟨_, ⟨r, _, h⟩ | ⟨_, h⟩⟩ <;>
    rw [h] <;> intro x hx
  · exact hx
  · exact List.mem_cons_of_mem _ hx
  · exact List.mem_cons_of_mem _ hx

theorem Crawler.crawl_recursive_fst_len (fetch : String → Option Crawler.CrawlResponse)
    (md : Nat) (u : String) (d : Nat) (seen : List String) :
    (Crawler.crawl_recursive fetch md u d seen).1.length ≤ 1 := by
  rcases Crawler.crawl_recursive_cases fetch md u d seen with h | ⟨_, ⟨r, _, h⟩ | ⟨_, h⟩⟩ <;>
    rw [h] <;> simp

theorem Crawler.crawl_recursive_mem (fetch : String → Option Crawler.CrawlResponse)
    (md : Nat) (u : String) (d : Nat) (seen : List String) (rec : Crawler.CrawlRecord)
    (hrec : rec ∈ (Crawler.crawl_recursive fetch md u d seen).1) :
    rec.url = u ∧ rec.depth = d ∧ u ∉ seen ∧
      rec.url ∈ (Crawler.crawl_recursive fetch md u d seen).2 := by
  rcases Crawler.crawl_recursive_cases fetch md u d seen with h | ⟨hu, ⟨r, _, h⟩ | ⟨_, h⟩⟩ <;>
    rw [h] at hrec ⊢
  · simp at hrec
  · simp only [List.mem_singleton] at hrec
    subst hrec
    exact ⟨rfl, rfl, hu, List.mem_cons_self _ _⟩
  · simp at hrec

theorem Crawler.crawlGo_mem (fetch : String → Option Crawler.CrawlResponse) (md : Nat) :
    ∀ (us seen : List String) (r : Crawler.CrawlRecord),
      r ∈ Crawler.crawlGo fetch md us seen →
      r.depth = 0 ∧ r.url ∈ us ∧ r.url ∉ seen := by
  intro us
  induction us with
  | nil => intro seen r h; simp [Crawler.crawlGo] at h
  | cons u rest ih =>
    intro seen r h
    simp only [Crawler.crawlGo] at h
    rcases List.mem_append.mp h with h | h
    · obtain ⟨hurl, hdep, hseen, _⟩ :=
        Crawler.crawl_recursive_mem fetch md u 0 seen r h
      exact ⟨hdep, hurl ▸ List.mem_cons_self _ _, hurl ▸ hseen⟩
    · obtain ⟨hdep, hmem, hseen⟩ := ih _ r h
      refine ⟨hdep, List.mem_cons_of_mem _ hmem, fun hc => ?_⟩
      exact hseen (Crawler.crawl_recursive_snd_sup fetch md u 0 seen hc)

theorem Crawler.crawlGo_countP_eq_zero (fetch : String → Option Crawler.CrawlResponse)
    (md : Nat) (L : String) (us seen : List String) (hL : L ∈ seen) :
    List.countP (fun r => r.url == L) (Crawler.crawlGo fetch md us seen) = 0 := by
  rw [List.countP_eq_zero]
  intro r hr
  have h3 := Crawler.crawlGo_mem fetch md us seen r hr
  simp only [beq_iff_eq]
  intro he
  exact h3.2.2 (he ▸ hL)

theorem Crawler.crawlGo_countP_le_one (fetch : String → Option Crawler.CrawlResponse)
    (md : Nat) (L : String) :
    ∀ us seen : List String,
      List.countP (fun r => r.url == L) (Crawler.crawlGo fetch md us seen) ≤ 1 := by
  intro us
  induction us with
  | nil => intro seen; simp [Crawler.crawlGo]
  | cons u rest ih =>
    intro seen
    simp only [Crawler.crawlGo, List.countP_append]
    rcases Nat.eq_zero_or_pos
        (List.countP (fun r => r.url == L) (Crawler.crawl_recursive fetch md u 0 seen).1)
      with h0 | hpos
    · rw [h0]; simpa using ih _
    · obtain ⟨r, hr, hp⟩ := List.countP_pos_iff.mp hpos
      have hurl : r.url = L := by simpa using hp
      have hsnd :=
        (Crawler.crawl_recursive_mem fetch md u 0 seen r hr).2.2.2
      have hzero :=
        Crawler.crawlGo_countP_eq_zero fetch md L rest _ (hurl ▸ hsnd)
      rw [hzero]
      have hle := List.countP_le_length
        (l := (Crawler.crawl_recursive fetch md u 0 seen).1) (fun r => r.url == L)
      have hlen := Crawler.crawl_recursive_fst_len fetch md u 0 seen
      omega

theorem Crawler.crawlGo_length (fetch : String → Option Crawler.CrawlResponse) (md : Nat) :
    ∀ us seen : List String,
      (Crawler.crawlGo fetch md us seen).length ≤ us.length := by
  intro us
  induction us with
  | nil => intro seen; simp [Crawler.crawlGo]
  | cons u rest ih =>
    intro seen
    simp only [Crawler.crawlGo, List.length_append, List.length_cons]
    have h1 := Crawler.crawl_recursive_fst_len fetch md u 0 seen
    have h2 := ih (Crawler.crawl_recursive fetch md u 0 seen).2
    omega

/-- C3: for every fetch behavior, every max_depth and every seed list
(including seeds equal to or reachable from other seeds), each locator
appears in the list Crawler.crawl returns at most once: the shared seen
set guarantees no locator is fetched twice within one invocation. -/
theorem claimC3_dedup (fetch : String → Option Crawler.CrawlResponse)
    (md : Nat) (seeds : List String) (L : String) :
    List.countP (fun r => r.url == L) (Crawler.crawl fetch md seeds) ≤ 1 :=
  Crawler.crawlGo_countP_le_one fetch md L seeds []

/-- C4: with max_depth = 0 the crawler returns at most one record per seed
(at most len(seeds) records in total, each with depth 0 and a seed URL),
and a locator presented at depth d greater than max_depth yields no record
and no further expansion. -/
theorem claimC4_depth_bound (fetch : String → Option Crawler.CrawlResponse)
    (seeds : List String) :
    ((Crawler.crawl fetch 0 seeds).length ≤ seeds.length ∧
      (∀ L, List.countP (fun r => r.url == L) (Crawler.crawl fetch 0 seeds) ≤ 1) ∧
      ∀ r ∈ Crawler.crawl fetch 0 seeds, r.depth = 0 ∧ r.url ∈ seeds) ∧
    ∀ (u : String) (d : Nat) (seen : List String), d > 0 →
      Crawler.crawl_recursive fetch 0 u d seen = ([], seen) :=
  ⟨⟨Crawler.crawlGo_length fetch 0 seeds [],
    fun L => Crawler.crawlGo_countP_le_one fetch 0 L seeds [],
    fun r hr =>
      ⟨(Crawler.crawlGo_mem fetch 0 seeds [] r hr).1,
       (Crawler.crawlGo_mem fetch 0 seeds [] r hr).2.1⟩⟩,
   fun u d seen hd => Crawler.crawl_recursive_stop fetch 0 u d seen hd⟩

/-- Witness for C4 at a concrete fetch oracle and seed list: a depth-1 call
with max_depth 0 yields nothing, and the record returned for seed "a" has
depth 0. -/
theorem claimC4_depth_bound_witness :
    ((0 : Nat) < 1 ∧ Crawler.crawl_recursive fetchW 0 "x" 1 [] = ([], [])) ∧
    (({ url := "a", status_code := 200, content_length := 3,
        content_type := "text/html", response_time := 1, timestamp := 5,
        depth := 0 } : Crawler.CrawlRecord) ∈ Crawler.crawl fetchW 0 ["a"] ∧
      ({ url := "a", status_code := 200, content_length := 3,
         content_type := "text/html", response_time := 1, timestamp := 5,
         depth := 0 } : Crawler.CrawlRecord).depth = 0) :=
  ⟨⟨by decide, (claimC4_depth_bound fetchW ["a"]).2 "x" 1 [] (by decide)⟩,
   by decide,
   ((claimC4_depth_bound fetchW ["a"]).1.2.2 _ (by decide)).1⟩

/-- C10: for every fetch behavior, every configured max_depth and every
seed list, every record Crawler.crawl returns has depth 0: the loop only
ever invokes the recursive fetch at depth 0 and the fetch never recurses,
so the depth field is constant regardless of max_depth. -/
theorem claimC10_depth_constant (fetch : String → Option Crawler.CrawlResponse)
    (md : Nat) (seeds : List String) (r : Crawler.CrawlRecord)
    (h : r ∈ Crawler.crawl fetch md seeds) : r.depth = 0 :=
  (Crawler.crawlGo_mem fetch md seeds [] r h).1

theorem countP_add_countP_not {α : Type} (p : α → Bool) :
    ∀ l : List α, List.countP p l + List.countP (fun a => !p a) l = l.length := by
  intro l
  induction l with
  | nil => simp
  | cons a t ih => by_cases h : p a <;> simp [List.countP_cons, h] <;> omega

theorem MetricsCollector.collect_http_metrics_length
    (probe : String → MetricsCollector.HttpOutcome) :
    ∀ eps : List String,
      (MetricsCollector.collect_http_metrics probe eps).length = eps.length := by
  intro eps
  induction eps with
  | nil => rfl
  | cons e rest ih =>
    cases hp : probe e <;>
      simp [MetricsCollector.collect_http_metrics, hp, ih]

theorem MetricsCollector.collect_http_metrics_counts
    (probe : String → MetricsCollector.HttpOutcome) :
    ∀ eps : List String,
      List.countP (fun m => !m.success)
          (MetricsCollector.collect_http_metrics probe eps) =
        List.countP (fun e => (probe e).isExn) eps ∧
      List.countP (fun m => m.success)
          (MetricsCollector.collect_http_metrics probe eps) =
        List.countP (fun e => !(probe e).isExn) eps := by
  intro eps
  induction eps with
  | nil => simp [MetricsCollector.collect_http_metrics]
  | cons e rest ih =>
    rw [MetricsCollector.collect_http_metrics]
    cases hp : probe e with
    | ok sc rt cl =>
      refine ⟨?_, ?_⟩ <;>
        rw [List.countP_cons, List.countP_cons, hp] <;>
        simp only [MetricsCollector.HttpOutcome.isExn, ih.1, ih.2] <;>
        rfl
    | exn m =>
      refine ⟨?_, ?_⟩ <;>
        rw [List.countP_cons, List.countP_cons, hp] <;>
        simp only [MetricsCollector.HttpOutcome.isExn, ih.1, ih.2] <;>
        rfl

theorem MetricsCollector.collect_http_metrics_error_isSome
    (probe : String → MetricsCollector.HttpOutcome) :
    ∀ (eps : List String) (m : MetricsCollector.HttpEntry),
      m ∈ MetricsCollector.collect_http_metrics probe eps →
      m.success = false → m.error.isSome := by
  intro eps
  induction eps with
  | nil => intro m hm; simp [MetricsCollector.collect_http_metrics] at hm
  | cons e rest ih =>
    intro m hm hsucc
    rw [MetricsCollector.collect_http_metrics] at hm
    rcases List.mem_cons.mp hm with hm | hm
    · cases hp : probe e with
      | ok sc rt cl => rw [hp] at hm; subst hm; simp at hsucc
      | exn msg => rw [hp] at hm; subst hm; rfl
    · exact ih m hm hsucc

theorem MetricsCollector.dictSet_lookup_self (k : String) {α : Type} (v : α) :
    ∀ xs : List (String × α),
      List.lookup k (MetricsCollector.dictSet k v xs) = some v := by
  intro xs
  induction xs with
  | nil => simp [MetricsCollector.dictSet, List.lookup]
  | cons p rest ih =>
    obtain ⟨k₁, v₁⟩ := p
    by_cases h : k₁ = k
    · subst h; simp [MetricsCollector.dictSet, List.lookup]
    · have hbeq : (k == k₁) = false := by
        simp only [beq_eq_false_iff_ne, ne_eq]
        exact fun hc => h hc.symm
      simp [MetricsCollector.dictSet, h, List.lookup, hbeq, ih]

theorem MetricsCollector.dictSet_lookup_other (k k' : String) {α : Type} (v : α)
    (h : k' ≠ k) :
    ∀ xs : List (String × α),
      List.lookup k' (MetricsCollector.dictSet k v xs) = List.lookup k' xs := by
  intro xs
  induction xs with
  | nil =>
    have hbeq : (k' == k) = false := by simp [beq_eq_false_iff_ne, h]
    simp [MetricsCollector.dictSet, List.lookup, hbeq]
  | cons p rest ih =>
    obtain ⟨k₁, v₁⟩ := p
    by_cases h₁ : k₁ = k
    · subst h₁
      have hbeq : (k' == k₁) = false := by simp [beq_eq_false_iff_ne, h]
      simp [MetricsCollector.dictSet, List.lookup, hbeq]
    · simp [MetricsCollector.dictSet, h₁, List.lookup, ih]

theorem MetricsCollector.collectSources_lookup_stable
    (probe : String → MetricsCollector.HttpOutcome) (endpoints : List String) :
    ∀ (srcs : List String) (acc : List (String × MetricsCollector.SourceMetrics)),
      "http" ∉ srcs →
      List.lookup "http" (MetricsCollector.collectSources probe endpoints srcs acc) =
        List.lookup "http" acc := by
  intro srcs
  induction srcs with
  | nil => intro acc _; rfl
  | cons s rest ih =>
    intro acc h
    have hr : "http" ∉ rest := fun hc => h (List.mem_cons_of_mem _ hc)
    by_cases h₁ : s = "system"
    · subst h₁
      simp only [MetricsCollector.collectSources, reduceIte]
      rw [ih _ hr,
        MetricsCollector.dictSet_lookup_other "system" "http" _ (by decide)]
    · by_cases h₂ : s = "http"
      · exact absurd (h₂ ▸ List.mem_cons_self s rest) h
      · simp only [MetricsCollector.collectSources, if_neg h₁, if_neg h₂]
        exact ih _ hr

theorem MetricsCollector.collectSources_lookup_http
    (probe : String → MetricsCollector.HttpOutcome) (endpoints : List String) :
    ∀ (srcs : List String) (acc : List (String × MetricsCollector.SourceMetrics)),
      "http" ∈ srcs →
      List.lookup "http" (MetricsCollector.collectSources probe endpoints srcs acc) =
        some (MetricsCollector.SourceMetrics.http
          (MetricsCollector.collect_http_metrics probe endpoints)) := by
  intro srcs
  induction srcs with
  | nil => intro acc h; simp at h
  | cons s rest ih =>
    intro acc h
    by_cases hr : "http" ∈ rest
    · by_cases h₁ : s = "system"
      · subst h₁
        simp only [MetricsCollector.collectSources, reduceIte]
        exact ih _ hr
      · by_cases h₂ : s = "http"
        · subst h₂
          simp only [MetricsCollector.collectSources, reduceIte]
          exact ih _ hr
        · simp only [MetricsCollector.collectSources, if_neg h₁, if_neg h₂]
          exact ih _ hr
    · have hs : s = "http" := by
        rcases List.mem_cons.mp h with h | h
        · exact h.symm
        · exact absurd h hr
      subst hs
      have hst := MetricsCollector.collectSources_lookup_stable probe endpoints rest
        (MetricsCollector.dictSet "http"
          (MetricsCollector.SourceMetrics.http
            (MetricsCollector.collect_http_metrics probe endpoints)) acc) hr
      rw [MetricsCollector.dictSet_lookup_self] at hst
      exact hst

theorem Analyzer.any_entry_has_error_iff (xs : List (String × PyVal)) :
    (xs.any fun kv => Analyzer.entry_has_error kv.2) = true ↔
      Analyzer.TopLevelError xs := by
  rw [List.any_eq_true]
  constructor
  · rintro ⟨⟨k, v⟩, hmem, hv⟩
    cases v with
    | dict ys => exact ⟨k, ys, hmem, hv⟩
    | none => simp [Analyzer.entry_has_error] at hv
    | bool b => simp [Analyzer.entry_has_error] at hv
    | int n => simp [Analyzer.entry_has_error] at hv
    | str s => simp [Analyzer.entry_has_error] at hv
    | list l => simp [Analyzer.entry_has_error] at hv
  · rintro ⟨k, ys, hmem, h⟩
    exact ⟨(k, PyVal.dict ys), hmem, h⟩

theorem Analyzer.analyze_cons (now : String) (y : String × PyVal)
    (ys : List (String × PyVal)) :
    Analyzer.analyze now (some (y :: ys)) = Except.ok
      { summary := [("total_metrics", PyVal.int (y :: ys).length),
                    ("has_errors", PyVal.bool
                      ((y :: ys).any fun kv => Analyzer.entry_has_error kv.2)),
                    ("timestamp", PyVal.str now)],
        insights :=
          if (y :: ys).any (fun kv => Analyzer.entry_has_error kv.2) then
            ["Performance issues detected in metrics collection"]
          else [],
        recommendations :=
          if (y :: ys).any (fun kv => Analyzer.entry_has_error kv.2) then
            ["Investigate error sources in metrics collection pipeline"]
          else [] } := rfl

/-- C2: for every endpoint list in which exactly one element's request
raises a request exception, the http entry list inside the snapshot
MetricsCollector.collect returns has exactly one entry per endpoint, with
exactly one success=false entry carrying a populated error field and all
the other entries success=true; the embedding is total, so no exception
escapes the call. -/
theorem claimC2_partial_failure (ts : String) (srcs : List String)
    (probe : String → MetricsCollector.HttpOutcome) (eps : List String)
    (hhttp : "http" ∈ srcs)
    (hone : List.countP (fun e => (probe e).isExn) eps = 1) :
    ∃ entries : List MetricsCollector.HttpEntry,
      List.lookup "http" (MetricsCollector.collect ts srcs probe eps).sources =
        some (MetricsCollector.SourceMetrics.http entries) ∧
      entries.length = eps.length ∧
      List.countP (fun m => !m.success) entries = 1 ∧
      List.countP (fun m => m.success) entries = eps.length - 1 ∧
      ∀ m ∈ entries, m.success = false → m.error.isSome := by
  refine ⟨MetricsCollector.collect_http_metrics probe eps,
    MetricsCollector.collectSources_lookup_http probe eps srcs [] hhttp,
    MetricsCollector.collect_http_metrics_length probe eps, ?_, ?_,
    MetricsCollector.collect_http_metrics_error_isSome probe eps⟩
  · rw [(MetricsCollector.collect_http_metrics_counts probe eps).1, hone]
  · rw [(MetricsCollector.collect_http_metrics_counts probe eps).2]
    have hsum := countP_add_countP_not (fun e => (probe e).isExn) eps
    omega

/-- Witness for C2 at three concrete endpoints of which exactly the second
one raises. -/
theorem claimC2_partial_failure_witness :
    ("http" ∈ ["system", "http"] ∧
      List.countP (fun e => (probeW e).isExn) ["a", "b", "c"] = 1) ∧
    ∃ entries : List MetricsCollector.HttpEntry,
      List.lookup "http"
          (MetricsCollector.collect "T" ["system", "http"] probeW
            ["a", "b", "c"]).sources =
        some (MetricsCollector.SourceMetrics.http entries) ∧
      entries.length = (["a", "b", "c"] : List String).length ∧
      List.countP (fun m => !m.success) entries = 1 ∧
      List.countP (fun m => m.success) entries =
        (["a", "b", "c"] : List String).length - 1 ∧
      ∀ m ∈ entries, m.success = false → m.error.isSome :=
  ⟨⟨by decide, by decide⟩,
   claimC2_partial_failure "T" ["system", "http"] probeW ["a", "b", "c"]
     (by decide) (by decide)⟩

/-- Witness for C10 at a concrete fetch oracle, max_depth 3 and one seed. -/
theorem claimC10_depth_constant_witness :
    ({ url := "a", status_code := 200, content_length := 3,
       content_type := "text/html", response_time := 1, timestamp := 5,
       depth := 0 } : Crawler.CrawlRecord) ∈ Crawler.crawl fetchW 3 ["a"] ∧
    ({ url := "a", status_code := 200, content_length := 3,
       content_type := "text/html", response_time := 1, timestamp := 5,
       depth := 0 } : Crawler.CrawlRecord).depth = 0 :=
  ⟨by decide,
   claimC10_depth_constant fetchW 3 ["a"] _ (by decide)⟩

/-- C1 counterexample: a snapshot whose only error sits in a nested http
entry (with a truthy error field and success=false) under the top-level
"sources" value. The claim says has_errors must be true with a non-empty
insights list; Analyzer.analyze returns has_errors = false and no
insights, because _check_for_errors only inspects top-level dict values. -/
theorem claimC1_counterexample :
    ∃ r : Analyzer.AnalysisResult,
      Analyzer.analyze "T" (some [("sources", PyVal.dict [("http", PyVal.list
        [PyVal.dict [("url", PyVal.str "u"), ("error", PyVal.str "boom"),
          ("success", PyVal.bool false)]])])]) = Except.ok r ∧
      List.lookup "has_errors" r.summary = some (PyVal.bool false) ∧
      r.insights = [] :=
  ⟨{ summary := [("total_metrics", PyVal.int 1),
                 ("has_errors", PyVal.bool false),
                 ("timestamp", PyVal.str "T")],
     insights := [], recommendations := [] }, rfl, rfl, rfl⟩

/-- C1 amended: for every non-empty snapshot, summary.has_errors is true
iff some TOP-LEVEL value of the snapshot is a dict carrying a truthy error
field (deeper entries, e.g. of an http metrics list under the sources map,
are not inspected), and the insights list is non-empty exactly in that
case. -/
theorem claimC1_amended (now : String) (xs : List (String × PyVal))
    (h : xs ≠ []) :
    ∃ (b : Bool) (r : Analyzer.AnalysisResult),
      Analyzer.analyze now (some xs) = Except.ok r ∧
      List.lookup "has_errors" r.summary = some (PyVal.bool b) ∧
      (b = true ↔ Analyzer.TopLevelError xs) ∧
      (r.insights ≠ [] ↔ Analyzer.TopLevelError xs) := by
  cases xs with
  | nil => exact absurd rfl h
  | cons y ys =>
    refine ⟨(y :: ys).any (fun kv => Analyzer.entry_has_error kv.2), _,
      Analyzer.analyze_cons now y ys, rfl,
      Analyzer.any_entry_has_error_iff _, ?_⟩
    rw [← Analyzer.any_entry_has_error_iff]
    cases hb : (y :: ys).any (fun kv => Analyzer.entry_has_error kv.2) <;>
      simp

/-- Witness for the amended C1 at a snapshot with one top-level dict value
carrying a truthy error field. -/
theorem claimC1_amended_witness :
    ([("http", PyVal.dict [("error", PyVal.str "x")])] :
        List (String × PyVal)) ≠ [] ∧
    ∃ (b : Bool) (r : Analyzer.AnalysisResult),
      Analyzer.analyze "T"
          (some [("http", PyVal.dict [("error", PyVal.str "x")])]) =
        Except.ok r ∧
      List.lookup "has_errors" r.summary = some (PyVal.bool b) ∧
      (b = true ↔
        Analyzer.TopLevelError [("http", PyVal.dict [("error", PyVal.str "x")])]) ∧
      (r.insights ≠ [] ↔
        Analyzer.TopLevelError [("http", PyVal.dict [("error", PyVal.str "x")])]) :=
  ⟨by simp, claimC1_amended "T" _ (by simp)⟩

/-- C5 counterexample: on the snapshot shape MetricsCollector.collect
actually produces — top-level keys timestamp, sources and collected_count,
with two entries in the sources map — Analyzer.analyze reports
total_metrics = 3, the number of top-level keys, not 2, the number of
entries of the sources map. -/
theorem claimC5_counterexample :
    ∃ r : Analyzer.AnalysisResult,
      Analyzer.analyze "T" (some [("timestamp", PyVal.str "T0"),
        ("sources", PyVal.dict [("system", PyVal.dict []),
          ("http", PyVal.list [])]),
        ("collected_count", PyVal.int 2)]) = Except.ok r ∧
      List.lookup "total_metrics" r.summary = some (PyVal.int 3) ∧
      List.lookup "sources" [("timestamp", PyVal.str "T0"),
        ("sources", PyVal.dict [("system", PyVal.dict []),
          ("http", PyVal.list [])]),
        ("collected_count", PyVal.int 2)] =
        some (PyVal.dict [("system", PyVal.dict []), ("http", PyVal.list [])]) ∧
      ([("system", PyVal.dict []), ("http", PyVal.list [])] :
        List (String × PyVal)).length = 2 ∧
      (3 : Int) ≠ 2 :=
  ⟨{ summary := [("total_metrics", PyVal.int 3),
                 ("has_errors", PyVal.bool false),
                 ("timestamp", PyVal.str "T")],
     insights := [], recommendations := [] }, rfl, rfl, rfl, rfl, by decide⟩

/-- C5 amended: for every non-empty snapshot, summary.total_metrics equals
the number of TOP-LEVEL keys of the snapshot dict itself (len(metrics_data)),
not the number of entries of its sources map. -/
theorem claimC5_amended (now : String) (xs : List (String × PyVal))
    (h : xs ≠ []) :
    ∃ r : Analyzer.AnalysisResult,
      Analyzer.analyze now (some xs) = Except.ok r ∧
      List.lookup "total_metrics" r.summary = some (PyVal.int xs.length) := by
  cases xs with
  | nil => exact absurd rfl h
  | cons y ys => exact ⟨_, Analyzer.analyze_cons now y ys, rfl⟩

/-- Witness for the amended C5 at a one-key snapshot. -/
theorem claimC5_amended_witness :
    ([("a", PyVal.int 1)] : List (String × PyVal)) ≠ [] ∧
    ∃ r : Analyzer.AnalysisResult,
      Analyzer.analyze "T" (some [("a", PyVal.int 1)]) = Except.ok r ∧
      List.lookup "total_metrics" r.summary =
        some (PyVal.int ([("a", PyVal.int 1)] : List (String × PyVal)).length) :=
  ⟨by simp, claimC5_amended "T" _ (by simp)⟩

/-- C6 counterexample: two analyze calls on the same snapshot taken at
wall-clock readings "T0" and "T1" return different results, because
summary.timestamp records the time of the analysis call
(datetime.datetime.now() inside _get_latest_timestamp). -/
theorem claimC6_counterexample :
    Analyzer.analyze "T0" (some [("a", PyVal.int 1)]) ≠
      Analyzer.analyze "T1" (some [("a", PyVal.int 1)]) := by
  intro h
  have h₂ := congrArg (fun x =>
    match x with
    | Except.ok r => List.lookup "timestamp" r.summary
    | Except.error _ => Option.none) h
  have h₃ : (some (PyVal.str "T0") : Option PyVal) = some (PyVal.str "T1") := h₂
  injection h₃ with h₄
  injection h₄ with h₅
  exact absurd h₅ (by decide)

/-- C6 amended: two analyze calls on the same snapshot agree on insights,
recommendations and every summary field except timestamp (total_metrics,
has_errors, and the error flag of empty snapshots); the timestamp field
records the wall-clock time of the respective call. -/
theorem claimC6_amended (t₁ t₂ : String) (md : Option (List (String × PyVal)))
    (r₁ r₂ : Analyzer.AnalysisResult)
    (h₁ : Analyzer.analyze t₁ md = Except.ok r₁)
    (h₂ : Analyzer.analyze t₂ md = Except.ok r₂) :
    r₁.insights = r₂.insights ∧
    r₁.recommendations = r₂.recommendations ∧
    List.lookup "total_metrics" r₁.summary =
      List.lookup "total_metrics" r₂.summary ∧
    List.lookup "has_errors" r₁.summary =
      List.lookup "has_errors" r₂.summary ∧
    List.lookup "error" r₁.summary = List.lookup "error" r₂.summary := by
  cases md with
  | none => exact Except.noConfusion h₁
  | some xs =>
    cases xs with
    | nil =>
      have e₁ : Analyzer.analyze t₁ (some []) = Except.ok
          { summary := [("error", PyVal.str "No metrics data provided")],
            insights := [], recommendations := [] } := rfl
      have e₂ : Analyzer.analyze t₂ (some []) = Except.ok
          { summary := [("error", PyVal.str "No metrics data provided")],
            insights := [], recommendations := [] } := rfl
      rw [e₁] at h₁
      rw [e₂] at h₂
      injection h₁ with h₁
      injection h₂ with h₂
      subst h₁
      subst h₂
      exact ⟨rfl, rfl, rfl, rfl, rfl⟩
    | cons y ys =>
      rw [Analyzer.analyze_cons t₁ y ys] at h₁
      rw [Analyzer.analyze_cons t₂ y ys] at h₂
      injection h₁ with h₁
      injection h₂ with h₂
      subst h₁
      subst h₂
      exact ⟨rfl, rfl, rfl, rfl, rfl⟩

/-- Witness for the amended C6: the two concrete results of analyzing the
same one-key snapshot at times "T0" and "T1" agree on everything but the
timestamp. -/
theorem claimC6_amended_witness :
    ({ summary := [("total_metrics", PyVal.int 1),
        ("has_errors", PyVal.bool false), ("timestamp", PyVal.str "T0")],
       insights := [], recommendations := [] } :
         Analyzer.AnalysisResult).insights =
      ({ summary := [("total_metrics", PyVal.int 1),
          ("has_errors", PyVal.bool false), ("timestamp", PyVal.str "T1")],
         insights := [], recommendations := [] } :
           Analyzer.AnalysisResult).insights ∧
    ({ summary := [("total_metrics", PyVal.int 1),
        ("has_errors", PyVal.bool false), ("timestamp", PyVal.str "T0")],
       insights := [], recommendations := [] } :
         Analyzer.AnalysisResult).recommendations =
      ({ summary := [("total_metrics", PyVal.int 1),
          ("has_errors", PyVal.bool false), ("timestamp", PyVal.str "T1")],
         insights := [], recommendations := [] } :
           Analyzer.AnalysisResult).recommendations ∧
    List.lookup "total_metrics"
        ({ summary := [("total_metrics", PyVal.int 1),
            ("has_errors", PyVal.bool false), ("timestamp", PyVal.str "T0")],
           insights := [], recommendations := [] } :
             Analyzer.AnalysisResult).summary =
      List.lookup "total_metrics"
        ({ summary := [("total_metrics", PyVal.int 1),
            ("has_errors", PyVal.bool false), ("timestamp", PyVal.str "T1")],
           insights := [], recommendations := [] } :
             Analyzer.AnalysisResult).summary ∧
    List.lookup "has_errors"
        ({ summary := [("total_metrics", PyVal.int 1),
            ("has_errors", PyVal.bool false), ("timestamp", PyVal.str "T0")],
           insights := [], recommendations := [] } :
             Analyzer.AnalysisResult).summary =
      List.lookup "has_errors"
        ({ summary := [("total_metrics", PyVal.int 1),
            ("has_errors", PyVal.bool false), ("timestamp", PyVal.str "T1")],
           insights := [], recommendations := [] } :
             Analyzer.AnalysisResult).summary ∧
    List.lookup "error"
        ({ summary := [("total_metrics", PyVal.int 1),
            ("has_errors", PyVal.bool false), ("timestamp", PyVal.str "T0")],
           insights := [], recommendations := [] } :
             Analyzer.AnalysisResult).summary =
      List.lookup "error"
        ({ summary := [("total_metrics", PyVal.int 1),
            ("has_errors", PyVal.bool false), ("timestamp", PyVal.str "T1")],
           insights := [], recommendations := [] } :
             Analyzer.AnalysisResult).summary :=
  claimC6_amended "T0" "T1" (some [("a", PyVal.int 1)]) _ _ rfl rfl

/-- C8 counterexample: analyzing an absent (None) snapshot raises
AttributeError inside _check_for_errors (None has no .items() method), so
the claim that an absent snapshot does not raise fails. -/
theorem claimC8_counterexample :
    Analyzer.analyze "T" Option.none = Except.error PyErr.attributeError := rfl

/-- C8 amended: analyzing an empty snapshot does not raise and returns a
summary explicitly flagging the absence of metrics data with empty insight
and recommendation lists, while analyzing an absent (None) snapshot raises
AttributeError. -/
theorem claimC8_amended (now : String) :
    Analyzer.analyze now (some []) = Except.ok
      { summary := [("error", PyVal.str "No metrics data provided")],
        insights := [], recommendations := [] } ∧
    Analyzer.analyze now Option.none = Except.error PyErr.attributeError :=
  ⟨rfl, rfl⟩

/-- C7 counterexample: with stored configuration a = 5, looking up the
dotted key a.b indexes into a non-dict intermediate value and raises
TypeError rather than returning the default. -/
theorem claimC7_counterexample :
    Config.get [("a", PyVal.int 5)] "a.b" PyVal.none =
      Except.error PyErr.typeError := rfl

/-- C7 amended: whenever the dotted-key traversal only ever indexes into
dicts (a missing segment being fine), Config.get does not raise and
returns the stored value, or the default when any segment is absent; but
when an intermediate segment resolves to a non-dict value the uncaught
TypeError propagates. -/
theorem claimC7_amended (conf : List (String × PyVal)) (key : String)
    (default : PyVal)
    (h : Config.safePath (PyVal.dict conf) (pySplitDot key) = true) :
    Config.get conf key default =
      Except.ok
        ((Config.resolvePath (PyVal.dict conf) (pySplitDot key)).getD default) := by
  unfold Config.get
  rw [Config.getPath_safe _ _ h]
  cases Config.resolvePath (PyVal.dict conf) (pySplitDot key) <;> rfl

/-- Witness for the amended C7: looking up the absent dotted key a.z in a
nested store yields the default. -/
theorem claimC7_amended_witness :
    Config.safePath (PyVal.dict [("a", PyVal.dict [("b", PyVal.int 7)])])
      (pySplitDot "a.z") = true ∧
    Config.get [("a", PyVal.dict [("b", PyVal.int 7)])] "a.z" (PyVal.int 0) =
      Except.ok
        ((Config.resolvePath (PyVal.dict [("a", PyVal.dict [("b", PyVal.int 7)])])
          (pySplitDot "a.z")).getD (PyVal.int 0)) :=
  ⟨rfl, claimC7_amended [("a", PyVal.dict [("b", PyVal.int 7)])] "a.z"
    (PyVal.int 0) rfl⟩

theorem ReportGenerator.saveLoop_length (dir base : String) :
    ∀ fmts : List String,
      (ReportGenerator.saveLoop dir base fmts).length =
        List.countP (fun f => f == "json") fmts := by
  intro fmts
  induction fmts with
  | nil => rfl
  | cons f rest ih =>
    by_cases h : f = "json"
    · subst h
      simp [ReportGenerator.saveLoop, List.countP_cons, ih]
    · have hbeq : (f == "json") = false := by
        simp [beq_eq_false_iff_ne, h]
      simp [ReportGenerator.saveLoop, h, List.countP_cons, hbeq, ih]

theorem ReportGenerator.saveLoop_eq_nil_iff (dir base : String) :
    ∀ fmts : List String,
      ReportGenerator.saveLoop dir base fmts = [] ↔ "json" ∉ fmts := by
  intro fmts
  induction fmts with
  | nil => simp [ReportGenerator.saveLoop]
  | cons f rest ih =>
    by_cases h : f = "json"
    · subst h
      simp [ReportGenerator.saveLoop]
    · have hne : "json" ≠ f := fun hc => h hc.symm
      simp [ReportGenerator.saveLoop, h, ih, List.mem_cons, hne]

theorem ReportGenerator.saveLoop_head (dir base : String) :
    ∀ fmts : List String, "json" ∈ fmts →
      ∃ rest, ReportGenerator.saveLoop dir base fmts =
        (dir ++ "/" ++ base ++ ".json") :: rest := by
  intro fmts
  induction fmts with
  | nil => intro h; simp at h
  | cons f rest ih =>
    intro h
    by_cases hf : f = "json"
    · subst hf
      exact ⟨ReportGenerator.saveLoop dir base rest, rfl⟩
    · have hmem : "json" ∈ rest := by
        rcases List.mem_cons.mp h with h | h
        · exact absurd h.symm hf
        · exact h
      obtain ⟨r, hr⟩ := ih hmem
      refine ⟨r, ?_⟩
      rw [ReportGenerator.saveLoop, if_neg hf]
      exact hr

/-- C9 counterexample: with reporting.formats = ["html"] the save loop
recognizes no format, so zero artifacts are written and the primary path
is empty even though a format is configured — contradicting the claim
that one artifact is written for every listed format and that an empty
path occurs only when no format is configured. -/
theorem claimC9_counterexample :
    ReportGenerator.save_report "reports" "2025-01-01T00:00:00Z" ["html"] =
      ([], "") ∧
    (["html"] : List String) ≠ [] :=
  ⟨rfl, by simp⟩

/-- C9 amended: ReportGenerator._save_report writes one artifact per
occurrence of the recognized format "json" in reporting.formats (formats
other than json are silently skipped), each under a filename derived from
the report timestamp with ":" replaced by "-" and "T" by "_"; the primary
path it returns is empty iff no json format is configured, and otherwise
is the json artifact path in the configured output directory. -/
theorem claimC9_amended (dir ts : String) (formats : List String) :
    (ReportGenerator.save_report dir ts formats).1.length =
      List.countP (fun f => f == "json") formats ∧
    ((ReportGenerator.save_report dir ts formats).2 = "" ↔
      "json" ∉ formats) ∧
    ("json" ∈ formats →
      (ReportGenerator.save_report dir ts formats).2 =
        dir ++ "/" ++ ("performance_report_" ++
          replaceChar 'T' '_' (replaceChar ':' '-' ts)) ++ ".json") := by
  refine ⟨ReportGenerator.saveLoop_length dir _ formats, ⟨?_, ?_⟩, ?_⟩
  · intro h
    by_contra hmem
    have hmem₂ : "json" ∈ formats := hmem
    obtain ⟨r, hr⟩ := ReportGenerator.saveLoop_head dir
      ("performance_report_" ++ replaceChar 'T' '_' (replaceChar ':' '-' ts))
      formats hmem₂
    have h₂ : (ReportGenerator.save_report dir ts formats).2 =
        dir ++ "/" ++ ("performance_report_" ++
          replaceChar 'T' '_' (replaceChar ':' '-' ts)) ++ ".json" := by
      show (match ReportGenerator.saveLoop dir
          ("performance_report_" ++ replaceChar 'T' '_' (replaceChar ':' '-' ts))
          formats with
        | [] => ""
        | p :: _ => p) =
        dir ++ "/" ++ ("performance_report_" ++
          replaceChar 'T' '_' (replaceChar ':' '-' ts)) ++ ".json"
      rw [hr]
    rw [h₂] at h
    have hlen := congrArg String.length h
    rw [String.length_append, String.length_append] at hlen
    have h₅ : (".json" : String).length = 5 := rfl
    have h₀ : ("" : String).length = 0 := rfl
    rw [h₅, h₀] at hlen
    omega
  · intro hnot
    have hnil := (ReportGenerator.saveLoop_eq_nil_iff dir
      ("performance_report_" ++ replaceChar 'T' '_' (replaceChar ':' '-' ts))
      formats).mpr hnot
    show (match ReportGenerator.saveLoop dir
        ("performance_report_" ++ replaceChar 'T' '_' (replaceChar ':' '-' ts))
        formats with
      | [] => ""
      | p :: _ => p) = ""
    rw [hnil]
  · intro hmem
    obtain ⟨r, hr⟩ := ReportGenerator.saveLoop_head dir
      ("performance_report_" ++ replaceChar 'T' '_' (replaceChar ':' '-' ts))
      formats hmem
    show (match ReportGenerator.saveLoop dir
        ("performance_report_" ++ replaceChar 'T' '_' (replaceChar ':' '-' ts))
        formats with
      | [] => ""
      | p :: _ => p) =
      dir ++ "/" ++ ("performance_report_" ++
        replaceChar 'T' '_' (replaceChar ':' '-' ts)) ++ ".json"
    rw [hr]

/-- Witness for the amended C9 with formats ["html", "json"]: one artifact,
and the primary path names the json artifact derived from the sanitized
timestamp. -/
theorem claimC9_amended_witness :
    ("json" ∈ (["html", "json"] : List String)) ∧
    (ReportGenerator.save_report "reports" "2025-01-01T00:00:00Z"
        ["html", "json"]).2 =
      "reports" ++ "/" ++ ("performance_report_" ++
        replaceChar 'T' '_' (replaceChar ':' '-' "2025-01-01T00:00:00Z")) ++
        ".json" :=
  ⟨by decide,
   (claimC9_amended "reports" "2025-01-01T00:00:00Z" ["html", "json"]).2.2
     (by decide)⟩

end PerfSpec
